import Mathlib

/-!
# Verification of the lowEBMs integration core

A shallow embedding, over exact rationals, of the numerical core of the
`lowEBMs` energy-balance-model package:

* `model_equation` (src/lowEBMs/Packages/ModelEquation.py) — the flux-sum
  assembler producing dT/dt;
* `rk4alg` (src/lowEBMs/Packages/RK4.py) — the fixed-step fourth-order
  Runge-Kutta loop with its record cadence and steady-state stop criterion;
* `SteadyStateConditionGlobal`, `transfer.budyko`, `flux_down.insolation`
  and the forcing-tracker advancement loop of `forcing.random` /
  `forcing.predefined` (src/lowEBMs/Packages/Functions.py).

Conventions of the embedding:

* Python floats are modelled as `ℚ`; float rounding is out of scope.
* The process-wide mutable state (`Variables.Vars` plus the `builtins`
  globals `Runtime_Tracker` and `Noise_Tracker`) is threaded explicitly
  through an `RK4State` record.  The embedding fixes
  `spatial_resolution = 0` (0-dimensional model), so the `else` branch of
  RK4.py lines 199-202 applies and `Vars.T_global = Vars.T` at record
  points.
* A flux term is a function of the sub-stage counter (`Runtime_Tracker`),
  the simulation time `Vars.t`, the temperature `Vars.T` and a term-owned
  cache component, returning its flux value and the updated cache — the
  explicit-state image of a Python function reading and mutating `Vars`.
* The auxiliary readout store `Vars.Read` is the string-keyed dict built
  by `Variables.output_importer` (Variables.py line 507); it is embedded
  as an association list keyed by the inductive `ReadKey` that enumerates
  those keys.  Writes into it from flux terms replace single cells and
  never change its shape.  The truncation loop of `rk4alg` (RK4.py lines
  210-211) indexes this dict with the integers `0 .. len-1`, which match
  no key, so unless the dict is empty its first iteration raises
  `KeyError: 0`; raised exceptions are modelled by `Except PyError`.
-/

namespace LowEBMs

/-- The `[rk4input]` configuration entries consumed by `rk4alg` and
`SteadyStateConditionGlobal` (installed as `builtins` globals by
`Variables.builtin_importer`). -/
structure RK4Config where
  number_of_integration : ℕ
  stepsize_of_integration : ℚ
  eq_condition : Bool
  eq_condition_length : ℕ
  eq_condition_amplitude : ℚ
  data_readout : ℕ

/-- A Python exception surfaced by the embedded code: `KeyError: k` for
an integer key `k`. -/
inductive PyError where
  | keyError (k : ℕ)
deriving DecidableEq

/-- The keys of the string-keyed dict `Vars.Read` as built by
`Variables.output_importer` (Variables.py line 507), in insertion
order. -/
inductive ReadKey where
  | cL | C | F | P | Transfer | alpha | BudTransfer | solar | noise
  | Rdown | Rup | ExternalOutput | CO2Output | SolarOutput | AODOutput
deriving DecidableEq

/-- The mutable simulation state threaded through one `rk4alg` run:
`Vars.t`, `Vars.T`, `Vars.T_global`, the record cursor `j`, the three rows
of the output array `data`, the sub-stage counter `Runtime_Tracker`, the
auxiliary readout dict `Vars.Read` (as a `ReadKey`-keyed association
list), a term-owned cache component `aux`, and whether the loop has hit
the `break`. -/
structure RK4State (α : Type) where
  t : ℚ
  T : ℚ
  T_global : ℚ
  j : ℕ
  d0 : List ℚ
  d1 : List ℚ
  d2 : List ℚ
  tracker : ℕ
  readBufs : List (ReadKey × List ℚ)
  aux : α
  halted : Bool

/-- Python list slicing `l[a:b]` for an integer start `a` (which Python
interprets relative to the end of the list when negative) and a
nonnegative stop `b`; used for the trailing window
`data[2][j-eq_condition_length:j]` in RK4.py line 207. -/
def pySlice (l : List ℚ) (a : ℤ) (b : ℕ) : List ℚ :=
  let start : ℕ := if a < 0 then ((l.length : ℤ) + a).toNat else a.toNat
  (l.take b).drop start

/-- Numpy mean (`np.mean`) of a list of rationals. -/
def npMean (xs : List ℚ) : ℚ := xs.sum / (xs.length : ℚ)

/-- The square of `np.std`: the population variance
`mean ((x - mean xs)^2)`.  `np.std(xs) <= a` is represented in the
embedding as `npVariance xs ≤ a^2`, which is equivalent for the
nonnegative thresholds the configuration requires (the bridge to the
square root is proved in the claim-C6 theorem below). -/
def npVariance (xs : List ℚ) : ℚ :=
  ((xs.map (fun x => (x - npMean xs) ^ 2)).sum) / (xs.length : ℚ)

/-- Embeds `Functions.SteadyStateConditionGlobal` (Functions.py lines 2994-3006):
returns `True` if `np.std(Global) <= eq_condition_amplitude` (encoded on
the variance, see `npVariance`); otherwise returns `True` exactly when
`Runtime_Tracker == (number_of_integration - 1) * 4`, else `False`. -/
def SteadyStateConditionGlobal (cfg : RK4Config) (tracker : ℕ)
    (Global : List ℚ) : Bool :=
  if npVariance Global ≤ cfg.eq_condition_amplitude ^ 2 then
    true
  else if tracker = (cfg.number_of_integration - 1) * 4 then
    true
  else
    false

/-- A flux term of the model equation: reads the sub-stage counter
(`Runtime_Tracker`), `Vars.t`, `Vars.T` and its cache component, and
returns the flux value together with the updated cache. -/
def FluxTerm (α : Type) : Type := ℕ → ℚ → ℚ → α → ℚ × α

/-- Embeds `ModelEquation.model_equation` (ModelEquation.py lines 42-48): starts
from `y = 0`, calls `funclist['func0'], funclist['func1'], ...` in index
order, accumulating `y += func_i(...)` while the terms' cache effects
thread through, and returns `y / C_ao`. -/
def model_equation (C_ao : ℚ) (funclist : List (FluxTerm α)) : FluxTerm α :=
  fun tracker t T a =>
    let r := funclist.foldl
      (fun (acc : ℚ × α) f =>
        let v := f tracker t T acc.2
        (acc.1 + v.1, v.2))
      ((0 : ℚ), a)
    (r.1 / C_ao, r.2)

/-- Specification-side sequential evaluation: the list of the configured
terms' values, evaluated left to right with the cache threaded in the
configured order, together with the final cache. -/
def seq_term_values (funclist : List (FluxTerm α)) (tracker : ℕ)
    (t T : ℚ) (a : α) : List ℚ × α :=
  match funclist with
  | [] => ([], a)
  | f :: fs =>
      let v := f tracker t T a
      let r := seq_term_values fs tracker t T v.2
      (v.1 :: r.1, r.2)

/-- The state just before the `for` loop of `rk4alg` (RK4.py lines
162-174): `data` is a `3 × (n+1)` zero array whose column `0` holds the
initial `Vars.t`, `Vars.T`, `Vars.T_global`; the record cursor `j` and
`Runtime_Tracker` are `0` (`Variables.builtin_importer`). -/
def rk4init (cfg : RK4Config) (t0 T0 Tg0 : ℚ)
    (readBufs : List (ReadKey × List ℚ)) (a0 : α) : RK4State α :=
  let n := cfg.number_of_integration
  { t := t0
    T := T0
    T_global := Tg0
    j := 0
    d0 := (List.replicate (n + 1) (0 : ℚ)).set 0 t0
    d1 := (List.replicate (n + 1) (0 : ℚ)).set 0 T0
    d2 := (List.replicate (n + 1) (0 : ℚ)).set 0 Tg0
    tracker := 0
    readBufs := readBufs
    aux := a0
    halted := false }

/-- The stage-evaluation and recording part of one iteration `i` of the
`for` loop of `rk4alg` (RK4.py lines 175-202), for the 0-dimensional
model (`spatial_resolution = 0`): the four stage evaluations with
`Runtime_Tracker` incremented after each, the time advance, and the
record branch taken when `i % data_readout == 0` — which is also the
only place the weighted increment is written back into `Vars.T`; a
non-record step leaves `Vars.T` at the value `T0 + k3` set before the
`k4` evaluation. -/
def rk4stages (cfg : RK4Config) (func : FluxTerm α) (i : ℕ)
    (s : RK4State α) : RK4State α :=
  let h := cfg.stepsize_of_integration
  let T0 := s.T
  let r1 := func s.tracker s.t T0 s.aux
  let k1 := h * r1.1
  let r2 := func (s.tracker + 1) s.t (T0 + (1/2) * k1) r1.2
  let k2 := h * r2.1
  let r3 := func (s.tracker + 2) s.t (T0 + (1/2) * k2) r2.2
  let k3 := h * r3.1
  let r4 := func (s.tracker + 3) s.t (T0 + k3) r3.2
  let k4 := h * r4.1
  let tr := s.tracker + 4
  let tNew := s.t + h
  if i % cfg.data_readout = 0 then
    let jNew := s.j + 1
    let TNew := T0 + (k1 + k2 + k2 + k3 + k3 + k4) / 6
    { s with
        t := tNew, T := TNew, T_global := TNew, j := jNew,
        d0 := s.d0.set jNew tNew,
        d1 := s.d1.set jNew TNew,
        d2 := s.d2.set jNew TNew,
        tracker := tr, aux := r4.2 }
  else
    { s with t := tNew, T := T0 + k3, tracker := tr, aux := r4.2 }

/-- The `Vars.Read` truncation loop
`for m in range(len(Vars.Read)): Vars.Read[m]=Vars.Read[m][:(j)]`
(RK4.py lines 210-211).  `Vars.Read` is the string-keyed dict built by
`Variables.output_importer`, so the integer lookup `Vars.Read[m]` in the
first iteration matches no key and raises `KeyError: 0`; only for an
empty dict (where `range(0)` performs no iteration) does the loop
complete, leaving the dict unchanged. -/
def readTruncate (read : List (ReadKey × List ℚ)) (_j : ℕ) :
    Except PyError (List (ReadKey × List ℚ)) :=
  if read.length = 0 then Except.ok read
  else Except.error (PyError.keyError 0)

/-- The equilibrium-condition check at the end of one loop iteration
(RK4.py lines 203-212), acting on the state `s1` left by the stage
evaluations: when the condition is enabled and more than
`4 * eq_condition_length` sub-stages have elapsed, evaluate
`SteadyStateConditionGlobal` on `data[2][j-eq_condition_length:j]`; on
success truncate the rows of `data` to `j+1` entries (RK4.py lines
208-209) and then run the `Vars.Read` truncation loop, which raises
`KeyError: 0` for a non-empty `Vars.Read` (see `readTruncate`); only if
it completes does the `break` (modelled by `halted := true`) happen. -/
def rk4eqcheck (cfg : RK4Config) (s1 : RK4State α) :
    Except PyError (RK4State α) :=
  if cfg.eq_condition = true ∧ 4 * cfg.eq_condition_length < s1.tracker then
    if SteadyStateConditionGlobal cfg s1.tracker
        (pySlice s1.d2 ((s1.j : ℤ) - (cfg.eq_condition_length : ℤ)) s1.j)
        = true then
      match readTruncate s1.readBufs s1.j with
      | Except.ok r =>
          Except.ok
            { s1 with
                d0 := s1.d0.take (s1.j + 1),
                d1 := s1.d1.take (s1.j + 1),
                d2 := s1.d2.take (s1.j + 1),
                readBufs := r,
                halted := true }
      | Except.error e => Except.error e
    else Except.ok s1
  else Except.ok s1

/-- One full iteration `i` of the `for` loop of `rk4alg` (RK4.py lines
175-212): the stage/record part followed by the equilibrium check; on a
halted state (after the `break`) the remaining iterations of the
embedded loop do nothing, and a raised exception propagates. -/
def rk4body (cfg : RK4Config) (func : FluxTerm α) (i : ℕ)
    (s : RK4State α) : Except PyError (RK4State α) :=
  if s.halted then Except.ok s
  else rk4eqcheck cfg (rk4stages cfg func i s)

/-- The first `m` iterations of the `for i in range(1, n+1)` loop of
`rk4alg`, processing `i = 1, .., m` in order: after the `break` the
remaining iterations leave the state unchanged (`rk4body` returns a
halted state as is), and an exception raised in an earlier iteration
propagates past the remaining ones.  `rk4loop` is `rk4iter` at
`m = number_of_integration`. -/
def rk4iter (cfg : RK4Config) (func : FluxTerm α) :
    ℕ → RK4State α → Except PyError (RK4State α)
  | 0, s0 => Except.ok s0
  | m + 1, s0 =>
      match rk4iter cfg func m s0 with
      | Except.ok s => rk4body cfg func (m + 1) s
      | Except.error e => Except.error e

/-- The complete `for i in range(1, n+1)` loop of `rk4alg`. -/
def rk4loop (cfg : RK4Config) (func : FluxTerm α) (s0 : RK4State α) :
    Except PyError (RK4State α) :=
  rk4iter cfg func cfg.number_of_integration s0

/-- The three output rows returned by `rk4alg` plus the auxiliary
`Vars.Read` dict as it stands at the end of the run. -/
structure RK4Output where
  time : List ℚ
  ZMT : List ℚ
  GMT : List ℚ
  Read : List (ReadKey × List ℚ)

/-- Embeds `RK4.rk4alg` (RK4.py lines 162-218) for the 0-dimensional model:
allocates and initialises `data`, runs the loop, and returns
`[data[0][:j+1], data[1][:j+1], data[2][:j+1]]` together with the
auxiliary dict; an exception raised inside the loop aborts the run and
propagates to the caller. -/
def rk4alg (cfg : RK4Config) (func : FluxTerm α) (t0 T0 Tg0 : ℚ)
    (readBufs : List (ReadKey × List ℚ)) (a0 : α) :
    Except PyError RK4Output :=
  match rk4loop cfg func (rk4init cfg t0 T0 Tg0 readBufs a0) with
  | Except.ok s =>
      Except.ok
        { time := s.d0.take (s.j + 1)
          ZMT := s.d1.take (s.j + 1)
          GMT := s.d2.take (s.j + 1)
          Read := s.readBufs }
  | Except.error e => Except.error e

/-- Test fixture: `rk4input` with two steps of size `1`, record interval
`2`, equilibrium condition off. -/
def cfgA : RK4Config :=
  { number_of_integration := 2, stepsize_of_integration := 1,
    eq_condition := false, eq_condition_length := 0,
    eq_condition_amplitude := 0, data_readout := 2 }

/-- Test fixture: as `cfgA` but with record interval `1`. -/
def cfgArec : RK4Config :=
  { number_of_integration := 2, stepsize_of_integration := 1,
    eq_condition := false, eq_condition_length := 0,
    eq_condition_amplitude := 0, data_readout := 1 }

/-- Test fixture: `rk4input` with five steps of size `1`, record interval
`1`, equilibrium condition on with window length `2` and amplitude
threshold `1`. -/
def cfgB : RK4Config :=
  { number_of_integration := 5, stepsize_of_integration := 1,
    eq_condition := true, eq_condition_length := 2,
    eq_condition_amplitude := 1, data_readout := 1 }

/-- Test fixture: a flux term that always returns `0`. -/
def zeroTerm : FluxTerm Unit := fun _ _ _ a => ((0 : ℚ), a)

/-- Test fixture: a flux term returning the current temperature, so with
heat capacity `1` the model equation is `dT/dt = T`. -/
def linearTerm : FluxTerm Unit := fun _ _ T a => (T, a)

/-- The tracker-advancement `while` loop shared verbatim by
`forcing.random` (Functions.py lines 1656-1662) and `forcing.predefined`
(Functions.py lines 1773-1779): while `Vars.t` exceeds the timestamp at
the current tracker index, either clamp at the last index and reset the
held value to `0`, or store the value at the current index and advance
the index by one.  `times`/`values` are the two rows of
`Vars.ExternalInput[forcingnumber]`, `(idx, val)` is
`Vars.ForcingTracker[forcingnumber]`. -/
def trackerLoop (times values : List ℚ) (t : ℚ) (idx : ℕ) (val : ℚ) :
    ℕ × ℚ :=
  if h : idx < times.length ∧ times.getD idx 0 < t then
    if idx = times.length - 1 then (idx, 0)
    else trackerLoop times values t (idx + 1) (values.getD idx 0)
  else (idx, val)
termination_by times.length - idx
decreasing_by
  exact Nat.sub_lt_sub_left h.1 (Nat.lt_succ_self idx)

/-- The tracker advancement performed by one evaluation of
`forcing.random` (its `while` loop, Functions.py lines 1656-1662). -/
def forcing_random_advance (times values : List ℚ) (t : ℚ) (idx : ℕ)
    (val : ℚ) : ℕ × ℚ :=
  trackerLoop times values t idx val

/-- The tracker advancement performed by one evaluation of
`forcing.predefined` (its `while` loop, Functions.py lines 1773-1779). -/
def forcing_predefined_advance (times values : List ℚ) (t : ℚ) (idx : ℕ)
    (val : ℚ) : ℕ × ℚ :=
  trackerLoop times values t idx val

/-- One evaluation of `forcing.predefined` after its one-time data load
(Functions.py lines 1773-1783): advance the tracker, then return the new
tracker state together with `F = value * k_output + m_output`. -/
def forcing_predefined_eval (times values : List ℚ) (kOut mOut : ℚ)
    (t : ℚ) (idx : ℕ) (val : ℚ) : (ℕ × ℚ) × ℚ :=
  let tr := trackerLoop times values t idx val
  (tr, tr.2 * kOut + mOut)

/-- The parameter record of `transfer.budyko`. -/
structure BudykoParams where
  beta : ℚ
  Read : Bool
  Activated : Bool

/-- Embeds `transfer.budyko` (Functions.py lines 961-973): when activated,
`F = beta * (Vars.T_global - Vars.T)` (numpy broadcasting the scalar
global mean over the per-band array), otherwise `F = 0`.  The gated write
into `Vars.Read['BudTransfer']` only stores `F` and does not change the
returned value, so it is omitted here. -/
def budyko (p : BudykoParams) (T : List ℚ) (T_global : ℚ) : List ℚ :=
  if p.Activated = true then
    T.map (fun Ti => p.beta * (T_global - Ti))
  else
    List.replicate T.length 0

/-- The parameters of `flux_down.insolation` relevant to the embedded
sub-case (0-dimensional model, `solarinput == False`, static albedo,
no `forcing.solar`/`forcing.aod` term, hence `Vars.TSI = Vars.AOD = 0`). -/
structure InsolParams where
  Q : ℚ
  factor_solar : ℚ
  dQ : ℚ
  alpha : ℚ
  noise : Bool
  noiseamp : ℚ
  noisedelay : ℤ
  updatefrequency : ℕ

/-- Embeds `flux_down.insolation` (Functions.py lines 197-290) in the embedded
sub-case.  The cache component is `(Vars.solar, Noise_Tracker)`.  The
solar cache is refreshed to `Q` every `4 * updatefrequency` sub-stages;
with `solarinput == False` and `spatial_resolution == 0`,
`Q_total = Vars.solar + dQ + Vars.TSI` with `Vars.TSI = 0`.  On every
fourth sub-stage with `noise == True`, `Noise_Tracker` is overwritten:
by a fresh draw `np.random.normal(0, noiseamp)` — modelled as
`noiseamp * ω draw_index` for an ambient random stream `ω` — when
`int(Vars.t / stepsize) % noisedelay == 0`, and by `0` otherwise.  The
returned flux is `(Q_total + z) * (1 - alpha) * factor_solar` where `z`
is the (possibly stale) cached noise.  The gated writes into
`Vars.Read['solar'/'alpha'/'noise'/'Rdown']` store intermediate values
without affecting the returned flux and are omitted. -/
def insolation (p : InsolParams) (ω : ℕ → ℚ) (hstep : ℚ) :
    FluxTerm (ℚ × ℚ) :=
  fun tracker t _T cache =>
    let solar := if tracker % (4 * p.updatefrequency) = 0 then p.Q
                 else cache.1
    let Q_total := solar + p.dQ
    let alpha := p.alpha
    let noiseCache :=
      if tracker % 4 = 0 ∧ p.noise = true then
        (if (⌊t / hstep⌋ % p.noisedelay) = 0 then p.noiseamp * ω tracker
         else 0)
      else cache.2
    let z := noiseCache
    ((Q_total + z) * (1 - alpha) * p.factor_solar, (solar, noiseCache))

section Theorems

/-! ## Helper lemmas -/

lemma model_equation_foldl (fl : List (FluxTerm α)) (tracker : ℕ)
    (t T : ℚ) (y : ℚ) (a : α) :
    fl.foldl
        (fun (acc : ℚ × α) f =>
          ((acc.1 + (f tracker t T acc.2).1, (f tracker t T acc.2).2) : ℚ × α))
        (y, a)
      = (y + (seq_term_values fl tracker t T a).1.sum,
         (seq_term_values fl tracker t T a).2) := by
  induction fl generalizing y a with
  | nil => simp [seq_term_values]
  | cons f fs ih => simp [seq_term_values, ih, add_assoc]

lemma npVariance_nonneg (xs : List ℚ) : 0 ≤ npVariance xs := by
  unfold npVariance
  apply div_nonneg
  · apply List.sum_nonneg
    intro x hx
    obtain ⟨y, _, rfl⟩ := List.mem_map.mp hx
    positivity
  · exact_mod_cast Nat.zero_le _

lemma trackerLoop_idx_le (times values : List ℚ) (t : ℚ) :
    ∀ fuel idx val, times.length - idx ≤ fuel →
      idx ≤ (trackerLoop times values t idx val).1 := by
  intro fuel
  induction fuel with
  | zero =>
    intro idx val hfb
    rw [trackerLoop]
    split
    case isTrue hgd => omega
    case isFalse => exact le_refl idx
  | succ fb ih =>
    intro idx val hfb
    rw [trackerLoop]
    split
    case isTrue hgd =>
      split
      case isTrue => exact le_refl idx
      case isFalse hne =>
        have hrec := ih (idx + 1) (values.getD idx 0) (by omega)
        omega
    case isFalse => exact le_refl idx

lemma trackerLoop_past_last (times values : List ℚ) (t : ℚ) :
    ∀ fuel idx val, times.length - idx ≤ fuel → idx < times.length →
      (∀ x ∈ times, x < t) →
      trackerLoop times values t idx val = (times.length - 1, 0) := by
  intro fuel
  induction fuel with
  | zero => intro idx val hfb hidx hall; omega
  | succ fb ih =>
    intro idx val hfb hidx hall
    have hmem : times.getD idx 0 ∈ times := by
      rw [List.getD_eq_getElem?_getD, List.getElem?_eq_getElem hidx]
      exact List.getElem_mem hidx
    rw [trackerLoop]
    rw [dif_pos ⟨hidx, hall _ hmem⟩]
    split
    case isTrue heq => rw [heq]
    case isFalse hne => exact ih (idx + 1) (values.getD idx 0) (by omega) (by omega) hall

lemma rk4loop_eq_iter (cfg : RK4Config) (func : FluxTerm α)
    (s0 : RK4State α) :
    rk4loop cfg func s0 = rk4iter cfg func cfg.number_of_integration s0 :=
  rfl

lemma rk4iter_succ (cfg : RK4Config) (func : FluxTerm α) (m : ℕ)
    (s0 : RK4State α) :
    rk4iter cfg func (m + 1) s0
      = match rk4iter cfg func m s0 with
        | Except.ok s => rk4body cfg func (m + 1) s
        | Except.error e => Except.error e := rfl

lemma rk4stages_fields (cfg : RK4Config) (f : FluxTerm α) (i : ℕ)
    (s : RK4State α) :
    (rk4stages cfg f i s).j
        = s.j + (if i % cfg.data_readout = 0 then 1 else 0)
      ∧ (rk4stages cfg f i s).halted = s.halted
      ∧ (rk4stages cfg f i s).tracker = s.tracker + 4
      ∧ (rk4stages cfg f i s).d0.length = s.d0.length
      ∧ (rk4stages cfg f i s).d1.length = s.d1.length
      ∧ (rk4stages cfg f i s).d2.length = s.d2.length
      ∧ (rk4stages cfg f i s).readBufs = s.readBufs := by
  unfold rk4stages
  by_cases hrec : i % cfg.data_readout = 0 <;>
    simp [hrec, List.length_set]

lemma rk4eqcheck_noeq (cfg : RK4Config) (s1 : RK4State α)
    (heq : cfg.eq_condition = false) :
    rk4eqcheck cfg s1 = Except.ok s1 := by
  unfold rk4eqcheck
  rw [if_neg (by simp [heq])]

lemma rk4body_noeq (cfg : RK4Config) (f : FluxTerm α) (i : ℕ)
    (s : RK4State α) (heq : cfg.eq_condition = false)
    (hh : s.halted = false) :
    rk4body cfg f i s = Except.ok (rk4stages cfg f i s) := by
  simp [rk4body, hh, rk4eqcheck_noeq cfg _ heq]

lemma rk4iter_noeq (cfg : RK4Config) (func : FluxTerm α)
    (heq : cfg.eq_condition = false) (s0 : RK4State α)
    (h0 : s0.halted = false) (m : ℕ) :
    ∃ s : RK4State α,
      rk4iter cfg func m s0 = Except.ok s
        ∧ s.halted = false
        ∧ s.j = s0.j + m / cfg.data_readout
        ∧ s.d0.length = s0.d0.length
        ∧ s.d1.length = s0.d1.length
        ∧ s.d2.length = s0.d2.length := by
  induction m with
  | zero => exact ⟨s0, rfl, h0, by simp, rfl, rfl, rfl⟩
  | succ m ih =>
    obtain ⟨s, hs, hh, hj, h1, h2, h3⟩ := ih
    obtain ⟨gj, ghh, _, g0, g1, g2, _⟩ :=
      rk4stages_fields cfg func (m + 1) s
    refine ⟨rk4stages cfg func (m + 1) s, ?_, ghh.trans hh, ?_,
      g0.trans h1, g1.trans h2, g2.trans h3⟩
    · rw [rk4iter_succ, hs]
      exact rk4body_noeq cfg func (m + 1) s heq hh
    · rw [gj, hj, Nat.succ_div]
      by_cases hrec : (m + 1) % cfg.data_readout = 0
      · rw [if_pos hrec, if_pos (Nat.dvd_of_mod_eq_zero hrec)]
        omega
      · rw [if_neg hrec, if_neg (fun hd => hrec (Nat.mod_eq_zero_of_dvd hd))]
        omega

lemma cfgB_iter2 :
    rk4iter cfgB (model_equation 1 [zeroTerm]) 2
        (rk4init cfgB 0 1 1 [(ReadKey.BudTransfer, [0, 0, 0, 0, 0])] ())
      = Except.ok
          ⟨2, 1, 1, 2, [0, 1, 2, 0, 0, 0], [1, 1, 1, 0, 0, 0],
            [1, 1, 1, 0, 0, 0], 8,
            [(ReadKey.BudTransfer, [0, 0, 0, 0, 0])], (), false⟩ := by
  have h0 : rk4init cfgB 0 1 1 [(ReadKey.BudTransfer, [0, 0, 0, 0, 0])] ()
      = ⟨0, 1, 1, 0, [0, 0, 0, 0, 0, 0], [1, 0, 0, 0, 0, 0],
          [1, 0, 0, 0, 0, 0], 0,
          [(ReadKey.BudTransfer, [0, 0, 0, 0, 0])], (), false⟩ := by
    norm_num [rk4init, cfgB, List.replicate]
  have h1 : rk4body cfgB (model_equation 1 [zeroTerm]) 1
      (⟨0, 1, 1, 0, [0, 0, 0, 0, 0, 0], [1, 0, 0, 0, 0, 0],
          [1, 0, 0, 0, 0, 0], 0,
          [(ReadKey.BudTransfer, [0, 0, 0, 0, 0])], (), false⟩
        : RK4State Unit)
      = Except.ok
          ⟨1, 1, 1, 1, [0, 1, 0, 0, 0, 0], [1, 1, 0, 0, 0, 0],
            [1, 1, 0, 0, 0, 0], 4,
            [(ReadKey.BudTransfer, [0, 0, 0, 0, 0])], (), false⟩ := by
    norm_num [rk4body, rk4stages, rk4eqcheck, model_equation, zeroTerm,
      cfgB]
  have h2 : rk4body cfgB (model_equation 1 [zeroTerm]) 2
      (⟨1, 1, 1, 1, [0, 1, 0, 0, 0, 0], [1, 1, 0, 0, 0, 0],
          [1, 1, 0, 0, 0, 0], 4,
          [(ReadKey.BudTransfer, [0, 0, 0, 0, 0])], (), false⟩
        : RK4State Unit)
      = Except.ok
          ⟨2, 1, 1, 2, [0, 1, 2, 0, 0, 0], [1, 1, 1, 0, 0, 0],
            [1, 1, 1, 0, 0, 0], 8,
            [(ReadKey.BudTransfer, [0, 0, 0, 0, 0])], (), false⟩ := by
    norm_num [rk4body, rk4stages, rk4eqcheck, model_equation, zeroTerm,
      cfgB]
  rw [show (2 : ℕ) = 1 + 1 from rfl, rk4iter_succ,
    show (1 : ℕ) = 0 + 1 from rfl, rk4iter_succ,
    show rk4iter cfgB (model_equation 1 [zeroTerm]) 0
      (rk4init cfgB 0 1 1 [(ReadKey.BudTransfer, [0, 0, 0, 0, 0])] ())
      = Except.ok (rk4init cfgB 0 1 1
        [(ReadKey.BudTransfer, [0, 0, 0, 0, 0])] ()) from rfl,
    h0]
  norm_num [h1, h2]

lemma cfgB_run_error :
    rk4loop cfgB (model_equation 1 [zeroTerm])
        (rk4init cfgB 0 1 1 [(ReadKey.BudTransfer, [0, 0, 0, 0, 0])] ())
      = Except.error (PyError.keyError 0) := by
  have h3 : rk4body cfgB (model_equation 1 [zeroTerm]) 3
      (⟨2, 1, 1, 2, [0, 1, 2, 0, 0, 0], [1, 1, 1, 0, 0, 0],
          [1, 1, 1, 0, 0, 0], 8,
          [(ReadKey.BudTransfer, [0, 0, 0, 0, 0])], (), false⟩
        : RK4State Unit)
      = Except.error (PyError.keyError 0) := by
    norm_num [rk4body, rk4stages, rk4eqcheck, readTruncate, model_equation,
      zeroTerm, cfgB, SteadyStateConditionGlobal, npVariance, npMean,
      pySlice]
  rw [rk4loop,
    show cfgB.number_of_integration = 5 from rfl,
    show (5 : ℕ) = ((2 + 1) + 1) + 1 from rfl,
    rk4iter_succ, rk4iter_succ, rk4iter_succ, cfgB_iter2]
  norm_num [h3]

/-! ## Claim theorems -/

/-- C8: for every list of configured flux terms and every heat capacity
parameter `C_ao`, one evaluation of `model_equation` returns exactly the
sum of the evaluations of all configured terms, evaluated in the
configured order (`func0`, `func1`, ... with the cache threaded left to
right), divided by `C_ao`; the final cache is the one produced by that
same in-order evaluation. -/
theorem claim_C8_model_equation_sum (C_ao : ℚ) (fl : List (FluxTerm α))
    (tracker : ℕ) (t T : ℚ) (a : α) :
    model_equation C_ao fl tracker t T a
      = ((seq_term_values fl tracker t T a).1.sum / C_ao,
         (seq_term_values fl tracker t T a).2) := by
  simp only [model_equation]
  rw [model_equation_foldl]
  simp

/-- C9: one evaluation of the tracker-advancement loop shared by
`forcing.random` and `forcing.predefined` never decreases the tracker
index: each evaluation either leaves the index unchanged or advances it. -/
theorem claim_C9_tracker_monotone (times values : List ℚ) (t : ℚ)
    (idx : ℕ) (val : ℚ) :
    idx ≤ (forcing_random_advance times values t idx val).1
      ∧ idx ≤ (forcing_predefined_advance times values t idx val).1 := by
  constructor
  · exact trackerLoop_idx_le times values t times.length idx val
      (Nat.sub_le _ _)
  · exact trackerLoop_idx_le times values t times.length idx val
      (Nat.sub_le _ _)

/-- C3, counterexample: for the two-point series with timestamps
`[0, 10]` and values `[5, 7]` (`k_output = 1`, `m_output = 0`), an
evaluation at simulation time `t = 20`, past the last timestamp, returns
`0` and not the final value `7` of the series, contrary to the claim
that the last value persists. -/
theorem claim_C3_counterexample :
    (forcing_predefined_eval [0, 10] [5, 7] 1 0 20 0 0).2 = 0
      ∧ (forcing_predefined_eval [0, 10] [5, 7] 1 0 20 0 0).2
          ≠ ([5, 7] : List ℚ).getLastD 0 := by
  have h1 : trackerLoop [0, 10] [5, 7] 20 0 0
      = trackerLoop [0, 10] [5, 7] 20 1 5 := by
    rw [trackerLoop]
    norm_num
  have h2 : trackerLoop [0, 10] [5, 7] 20 1 5 = (1, 0) := by
    rw [trackerLoop]
    norm_num
  have hev : forcing_predefined_eval [0, 10] [5, 7] 1 0 20 0 0
      = ((1, 0), 0) := by
    simp [forcing_predefined_eval, h1, h2]
  rw [hev]
  norm_num

/-- C3, amended: once the simulation time has passed every timestamp of
the input series, the evaluation raises no out-of-range index error (the
loop is total and clamps the index at the last available index), but the
held value is reset to `0`, so the returned forcing is
`0 * k_output + m_output = m_output`, not the final value of the series. -/
theorem claim_C3_amended_holds (times values : List ℚ) (kOut mOut t : ℚ)
    (idx : ℕ) (val : ℚ) (hidx : idx < times.length)
    (hall : ∀ x ∈ times, x < t) :
    (forcing_predefined_eval times values kOut mOut t idx val).1
        = (times.length - 1, 0)
      ∧ (forcing_predefined_eval times values kOut mOut t idx val).2
        = mOut := by
  have hloop := trackerLoop_past_last times values t times.length idx val
    (Nat.sub_le _ _) hidx hall
  constructor
  · simp [forcing_predefined_eval, hloop]
  · simp [forcing_predefined_eval, hloop]

theorem claim_C3_witness :
    (0 < ([0, 10] : List ℚ).length)
      ∧ (∀ x ∈ ([0, 10] : List ℚ), x < 20)
      ∧ (forcing_predefined_eval [0, 10] [5, 7] 1 (3/2) 20 0 0).1
          = (([0, 10] : List ℚ).length - 1, 0)
      ∧ (forcing_predefined_eval [0, 10] [5, 7] 1 (3/2) 20 0 0).2 = 3/2 :=
  ⟨by decide, by decide,
   (claim_C3_amended_holds [0, 10] [5, 7] 1 (3/2) 20 0 0 (by decide)
      (by decide)).1,
   (claim_C3_amended_holds [0, 10] [5, 7] 1 (3/2) 20 0 0 (by decide)
      (by decide)).2⟩

/-- C4, counterexample: with `beta = 1`, a single band at temperature
`T = 2` and global mean `T_global = 1`, the activated Budyko transfer
term returns `[beta * (T_global - T)] = [-1]`, not
`[beta * (T - T_global)] = [1]` as the claim states. -/
theorem claim_C4_counterexample :
    budyko ⟨1, true, true⟩ [2] 1 = [-1]
      ∧ budyko ⟨1, true, true⟩ [2] 1 ≠ [(1 : ℚ) * (2 - 1)] := by
  constructor
  · norm_num [budyko]
  · norm_num [budyko]

/-- C4, amended: for every state with temperature field `T` and global
mean temperature `T_global`, the activated Budyko meridional transfer
term returns, per band, `beta * (T_global - T)`: the global mean minus
the per-band temperature, scaled by the transport coefficient `beta`
(the sign opposite to the claim). -/
theorem claim_C4_amended_holds (p : BudykoParams) (T : List ℚ)
    (T_global : ℚ) (i : ℕ) (hact : p.Activated = true)
    (hi : i < T.length) :
    (budyko p T T_global).getD i 0
      = p.beta * (T_global - T.getD i 0) := by
  simp [budyko, hact, List.getD_eq_getElem?_getD, List.getElem?_map,
    List.getElem?_eq_getElem hi]

theorem claim_C4_witness :
    ((⟨1, true, true⟩ : BudykoParams).Activated = true)
      ∧ (0 < ([2] : List ℚ).length)
      ∧ (budyko ⟨1, true, true⟩ [2] 1).getD 0 0
          = (1 : ℚ) * (1 - ([2] : List ℚ).getD 0 0) :=
  ⟨by decide, by decide,
   claim_C4_amended_holds ⟨1, true, true⟩ [2] 1 0 (by decide) (by decide)⟩

/-- C6: for every nonempty trailing window of global-mean-temperature
samples and every nonnegative configured threshold, the convergence
check returns `true` if and only if the standard deviation
`np.std = √(variance)` of the window is at most the threshold, or the
sub-stage counter has reached the value `(number_of_integration - 1) * 4`
that the code treats as the exhaustion point (there it returns `true`
unconditionally, even if the amplitude test fails; otherwise it returns
`false`). -/
theorem claim_C6_steady_state_iff (cfg : RK4Config) (tracker : ℕ)
    (w : List ℚ) (_hw : w ≠ [])
    (hamp : 0 ≤ cfg.eq_condition_amplitude) :
    SteadyStateConditionGlobal cfg tracker w = true
      ↔ (Real.sqrt ((npVariance w : ℚ) : ℝ)
            ≤ ((cfg.eq_condition_amplitude : ℚ) : ℝ)
          ∨ tracker = (cfg.number_of_integration - 1) * 4) := by
  have hbridge : Real.sqrt ((npVariance w : ℚ) : ℝ)
      ≤ ((cfg.eq_condition_amplitude : ℚ) : ℝ)
      ↔ npVariance w ≤ cfg.eq_condition_amplitude ^ 2 := by
    rw [Real.sqrt_le_left (by exact_mod_cast hamp)]
    constructor
    · intro hle; exact_mod_cast hle
    · intro hle; exact_mod_cast hle
  unfold SteadyStateConditionGlobal
  by_cases hvar : npVariance w ≤ cfg.eq_condition_amplitude ^ 2
  · simp [hvar, hbridge.mpr hvar]
  · by_cases htr : tracker = (cfg.number_of_integration - 1) * 4
    · simp [hvar, htr]
    · simp [hvar, htr, hbridge]

theorem claim_C6_witness :
    (([1, 2] : List ℚ) ≠ [])
      ∧ ((0 : ℚ) ≤ 5)
      ∧ (SteadyStateConditionGlobal
            { number_of_integration := 7, stepsize_of_integration := 1,
              eq_condition := true, eq_condition_length := 2,
              eq_condition_amplitude := 5, data_readout := 1 } 0 [1, 2]
              = true
          ↔ (Real.sqrt ((npVariance [1, 2] : ℚ) : ℝ) ≤ ((5 : ℚ) : ℝ)
              ∨ 0 = (7 - 1) * 4)) :=
  ⟨by decide, by decide,
   claim_C6_steady_state_iff
     { number_of_integration := 7, stepsize_of_integration := 1,
       eq_condition := true, eq_condition_length := 2,
       eq_condition_amplitude := 5, data_readout := 1 } 0 [1, 2]
     (by decide) (by decide)⟩

/-- C1, code-bug evidence: with the model equation `dT/dt = T`
(`linearTerm` with heat capacity `1`), step size `1` and start
temperature `T0 = 1`, the four stage increments of the first step are
`k1 = 1`, `k2 = 3/2`, `k3 = 7/4`, `k4 = 11/4`.  Under record interval
`2` the step index `1` is not a record step and the integrator leaves
the temperature at `T0 + k3 = 11/4`, while the same step under record
interval `1` — and the weighted-increment formula the claim states —
yields `T0 + (k1 + 2k2 + 2k3 + k4)/6 = 65/24 ≠ 11/4`: the state does
not carry forward by the weighted formula on non-recorded steps. -/
theorem claim_C1_nonrecord_step :
    (1 % cfgA.data_readout ≠ 0)
      ∧ (rk4body cfgA (model_equation 1 [linearTerm]) 1
          (rk4init cfgA 0 1 1 [] ())).map (fun s => s.T)
          = Except.ok (11/4 : ℚ)
      ∧ (rk4body cfgArec (model_equation 1 [linearTerm]) 1
          (rk4init cfgArec 0 1 1 [] ())).map (fun s => s.T)
          = Except.ok (1 + ((1 : ℚ) + 2 * (3/2) + 2 * (7/4) + 11/4) / 6)
      ∧ ((11/4 : ℚ)
          ≠ 1 + ((1 : ℚ) + 2 * (3/2) + 2 * (7/4) + 11/4) / 6) := by
  refine ⟨by decide, ?_, ?_, by norm_num⟩
  · norm_num [rk4body, rk4stages, rk4eqcheck, rk4init, model_equation,
      linearTerm, cfgA, List.replicate, Except.map]
  · norm_num [rk4body, rk4stages, rk4eqcheck, rk4init, model_equation,
      linearTerm, cfgArec, List.replicate, Except.map]

/-- C2: for a configuration with a single flux term returning the
constant `c`, heat capacity `C`, record interval `1` and any starting
temperature `T0`, one `rk4alg` integration step of size `h` yields the
temperature series `[T0, T0 + h*c/C]`: all four stage evaluations equal
`h*c/C` and the weighted increment collapses to `h*c/C`. -/
theorem claim_C2_constant_flux_step (t0 T0 Tg0 c C h : ℚ) :
    rk4alg
        { number_of_integration := 1, stepsize_of_integration := h,
          eq_condition := false, eq_condition_length := 0,
          eq_condition_amplitude := 0, data_readout := 1 }
        (model_equation C [fun _ _ _ a => (c, a)]) t0 T0 Tg0 [] ()
      = Except.ok
          ⟨[t0, t0 + h], [T0, T0 + h * c / C], [Tg0, T0 + h * c / C],
            []⟩ := by
  have hn : (RK4Config.mk 1 h false 0 0 1).number_of_integration
      = 0 + 1 := rfl
  rw [rk4alg.eq_def, rk4loop, hn, rk4iter_succ]
  norm_num [rk4iter, rk4body, rk4stages, rk4eqcheck, rk4init,
    model_equation, List.replicate]
  ring

/-- C7: with the equilibrium condition disabled, a run that exhausts its
`numberOfSteps` returns time, ZMT and GMT arrays with exactly
`numberOfSteps / recordInterval + 1` entries (the `+ 1` accounting for
the initial sample written at index `0`). -/
theorem claim_C7_recording_cadence (n dr L : ℕ) (A h t0 T0 Tg0 : ℚ)
    (func : FluxTerm α) (bufs : List (ReadKey × List ℚ)) (a0 : α)
    (_hdr : 0 < dr) :
    (rk4alg
        { number_of_integration := n, stepsize_of_integration := h,
          eq_condition := false, eq_condition_length := L,
          eq_condition_amplitude := A, data_readout := dr }
        func t0 T0 Tg0 bufs a0).map (fun o => o.time.length)
        = Except.ok (n / dr + 1)
      ∧ (rk4alg
          { number_of_integration := n, stepsize_of_integration := h,
            eq_condition := false, eq_condition_length := L,
            eq_condition_amplitude := A, data_readout := dr }
          func t0 T0 Tg0 bufs a0).map (fun o => o.ZMT.length)
        = Except.ok (n / dr + 1)
      ∧ (rk4alg
          { number_of_integration := n, stepsize_of_integration := h,
            eq_condition := false, eq_condition_length := L,
            eq_condition_amplitude := A, data_readout := dr }
          func t0 T0 Tg0 bufs a0).map (fun o => o.GMT.length)
        = Except.ok (n / dr + 1) := by
  obtain ⟨s, hs, hh, hj, hl0, hl1, hl2⟩ := rk4iter_noeq
    { number_of_integration := n, stepsize_of_integration := h,
      eq_condition := false, eq_condition_length := L,
      eq_condition_amplitude := A, data_readout := dr }
    func rfl (rk4init _ t0 T0 Tg0 bufs a0) rfl n
  have halg : rk4alg
      { number_of_integration := n, stepsize_of_integration := h,
        eq_condition := false, eq_condition_length := L,
        eq_condition_amplitude := A, data_readout := dr }
      func t0 T0 Tg0 bufs a0
      = Except.ok
          ⟨s.d0.take (s.j + 1), s.d1.take (s.j + 1), s.d2.take (s.j + 1),
            s.readBufs⟩ := by
    rw [rk4alg.eq_def, rk4loop, hs]
  have hdiv : n / dr ≤ n := Nat.div_le_self n dr
  refine ⟨?_, ?_, ?_⟩ <;>
    · rw [halg]
      simp only [Except.map, Except.ok.injEq]
      rw [List.length_take]
      first
        | rw [hl0] | rw [hl1] | rw [hl2]
      rw [hj]
      simp [rk4init, List.length_set]
      omega

theorem claim_C7_witness :
    0 < 2
      ∧ ((rk4alg
          { number_of_integration := 3, stepsize_of_integration := 1,
            eq_condition := false, eq_condition_length := 0,
            eq_condition_amplitude := 0, data_readout := 2 }
          zeroTerm 0 1 1 [] ()).map (fun o => o.time.length)
          = Except.ok (3 / 2 + 1)
        ∧ (rk4alg
            { number_of_integration := 3, stepsize_of_integration := 1,
              eq_condition := false, eq_condition_length := 0,
              eq_condition_amplitude := 0, data_readout := 2 }
            zeroTerm 0 1 1 [] ()).map (fun o => o.ZMT.length)
          = Except.ok (3 / 2 + 1)
        ∧ (rk4alg
            { number_of_integration := 3, stepsize_of_integration := 1,
              eq_condition := false, eq_condition_length := 0,
              eq_condition_amplitude := 0, data_readout := 2 }
            zeroTerm 0 1 1 [] ()).map (fun o => o.GMT.length)
          = Except.ok (3 / 2 + 1)) :=
  ⟨by decide,
   claim_C7_recording_cadence 3 2 0 0 1 0 1 1 zeroTerm [] () (by decide)⟩

/-- C5, code-bug evidence: in the `cfgB` run (five steps, record
interval `1`, equilibrium condition on with window `2` and threshold
`1`, constant zero flux, a one-entry `Vars.Read` dict), the run is still
unhalted after step `2`; the stop criterion fires during step `3`, and
`rk4alg` then raises `KeyError: 0` instead of returning truncated
arrays: the `Vars.Read` truncation loop (RK4.py lines 210-211) indexes
the string-keyed dict `Vars.Read` (Variables.py line 507) with the
integer `0`.  The early-terminating run therefore returns no arrays at
all — contradicting the claim and the code's own comment (RK4.py lines
203-204: cut the output array to the current length and move on to
return the output data). -/
theorem claim_C5_truncation_keyerror :
    (rk4iter cfgB (model_equation 1 [zeroTerm]) 2
        (rk4init cfgB 0 1 1
          [(ReadKey.BudTransfer, [0, 0, 0, 0, 0])] ())).map
        (fun s => s.halted)
        = Except.ok false
      ∧ rk4alg cfgB (model_equation 1 [zeroTerm]) 0 1 1
          [(ReadKey.BudTransfer, [0, 0, 0, 0, 0])] ()
        = Except.error (PyError.keyError 0) := by
  constructor
  · rw [cfgB_iter2]
    rfl
  · rw [rk4alg.eq_def, cfgB_run_error]

lemma insolation_noise_off (p : InsolParams) (hp : p.noise = false)
    (ω₁ ω₂ : ℕ → ℚ) (hstep : ℚ) :
    insolation p ω₁ hstep = insolation p ω₂ hstep := by
  funext tracker t T cache
  unfold insolation
  simp [hp]

/-- C10: with the incoming-radiation term's noise deactivated
(`noise == False`) and no random forcing in the term list (the remaining
terms `rest` are shared, random-stream-independent functions), `rk4alg`
is deterministic: two executions from the identical initial state under
two arbitrary ambient random streams `ω₁`, `ω₂` produce identical output
arrays. -/
theorem claim_C10_determinism (cfg : RK4Config) (p : InsolParams)
    (hstep : ℚ) (hp : p.noise = false)
    (rest : List (FluxTerm (ℚ × ℚ))) (C_ao t0 T0 Tg0 : ℚ)
    (bufs : List (ReadKey × List ℚ)) (a0 : ℚ × ℚ) (ω₁ ω₂ : ℕ → ℚ) :
    rk4alg cfg (model_equation C_ao (insolation p ω₁ hstep :: rest))
        t0 T0 Tg0 bufs a0
      = rk4alg cfg (model_equation C_ao (insolation p ω₂ hstep :: rest))
        t0 T0 Tg0 bufs a0 := by
  rw [insolation_noise_off p hp ω₁ ω₂ hstep]

theorem claim_C10_witness :
    (⟨342, 1, 0, 3/10, false, 1, 1, 1⟩ : InsolParams).noise = false
      ∧ rk4alg cfgArec
          (model_equation (2 * 10 ^ 8)
            [insolation ⟨342, 1, 0, 3/10, false, 1, 1, 1⟩
              (fun _ => 0) 1])
          0 288 288 [] (342, 0)
        = rk4alg cfgArec
            (model_equation (2 * 10 ^ 8)
              [insolation ⟨342, 1, 0, 3/10, false, 1, 1, 1⟩
                (fun n => (n : ℚ) + 1) 1])
            0 288 288 [] (342, 0) :=
  ⟨rfl,
   claim_C10_determinism cfgArec ⟨342, 1, 0, 3/10, false, 1, 1, 1⟩ 1 rfl
     [] (2 * 10 ^ 8) 0 288 288 [] (342, 0) (fun _ => 0)
     (fun n => (n : ℚ) + 1)⟩

end Theorems

end LowEBMs
